import Mathlib

/-!
Verification development for the `tracing-lock` crate (`src/src/main.rs`).

The crate wraps `Arc<RwLock<T>>` in an instrumented lock `TokioRwLockTrace<T>`.
Its `read`/`write` methods log a call-site record before awaiting the inner
lock, then wrap the granted tokio guard in `LoggingRwLockReadGuard` /
`LoggingRwLockWriteGuard` stamped with the acquisition instant; each guard's
`Drop` impl prints a timed release line followed by one call-site record.

The shallow embedding below models:
  * source locations and Rust's caller-location rules (`#[track_caller]` on
    `print_info`; `std::panic::Location::caller()` in a non-track_caller body
    yields the lexical site of that call, i.e. the `log_call_info!` expansion
    site inside `read`/`write`);
  * the `Arc` allocation as an address, its heap contents, and the strong and
    weak reference counts that govern `Arc::get_mut`;
  * wall-clock instants as natural numbers (tokio `Instant::elapsed` is the
    saturating difference `now - start`);
  * each `println!` both as an abstract `LockEvent` and as the literal output
    line, with an explicit output-sink flag (std's `println!` panics when the
    write to stdout fails; a panic is modelled as `Except.error`).
-/

namespace TracingLock

/-- A Rust source location (file and line), as carried by `std::panic::Location`. -/
structure Location where
  file : String
  line : Nat
deriving DecidableEq, Repr

/-- Lexical site of the `log_call_info!()` expansion inside
`TokioRwLockTrace::read` (src/src/main.rs:40). -/
def readLogSite : Location := ⟨"src/main.rs", 40⟩

/-- Lexical site of the `log_call_info!()` expansion inside
`TokioRwLockTrace::write` (src/src/main.rs:49). -/
def writeLogSite : Location := ⟨"src/main.rs", 49⟩

/-- Lexical site of the `print_info()` call inside
`impl Drop for LoggingRwLockReadGuard` (src/src/main.rs:86). -/
def readDropCallSite : Location := ⟨"src/main.rs", 86⟩

/-- Lexical site of the `print_info()` call inside
`impl Drop for LoggingRwLockWriteGuard` (src/src/main.rs:113). -/
def writeDropCallSite : Location := ⟨"src/main.rs", 113⟩

/-- Worker identifier: `std::thread::current().name().unwrap_or("unknown")`. -/
def threadNameOr (name : Option String) : String := name.getD "unknown"

/-- The fn-type marker printed by both record points:
`std::any::type_name::<fn()>()` renders as `fn()`. -/
def fnTypeMarker : String := "fn()"

/-- Abstract view of one printed line of the trace. -/
inductive LockEvent
  /-- A call-site record line (from `log_call_info!` or `print_info`). -/
  | callRecord (loc : Location) (thread : String)
  /-- The `Read lock released` line with its reported duration. -/
  | releaseRead (duration : Nat)
  /-- The `Write lock released` line with its reported duration. -/
  | releaseWrite (duration : Nat)
deriving DecidableEq, Repr

/-- Model of the `log_call_info!` macro: `Location::caller()` is invoked in the
body of a function that is not `#[track_caller]`, so it resolves to the lexical
site of the expansion itself. -/
def logCallInfo (expansionSite : Location) (thread : Option String) : LockEvent :=
  .callRecord expansionSite (threadNameOr thread)

/-- Model of `print_info`, which is `#[track_caller]`: `Location::caller()`
resolves to the site at which `print_info` was called. -/
def print_info (callerSite : Location) (thread : Option String) : LockEvent :=
  .callRecord callerSite (threadNameOr thread)

/-- Handle to a shared `Arc<RwLock<T>>` allocation: the address identifies the
allocation; cloning the `Arc` copies the address, never the contents. -/
structure ArcRwLock where
  addr : Nat
deriving DecidableEq, Repr

/-- The instrumented lock: `struct TokioRwLockTrace<T> { inner: Arc<RwLock<T>> }`. -/
structure TokioRwLockTrace where
  inner : ArcRwLock
deriving DecidableEq, Repr

/-- Constructor `TokioRwLockTrace::from(inner: Arc<RwLock<T>>)`: stores the
given shared handle as-is, copying only the pointer. -/
def TokioRwLockTrace.from (inner : ArcRwLock) : TokioRwLockTrace :=
  { inner := inner }

/-- Protected value observed through a handle, under a heap that assigns each
allocation address its current protected value. -/
def valueAt (heap : Nat → α) (a : ArcRwLock) : α := heap a.addr

/-- Reader/writer synchronization state observed through a handle, under a heap
that assigns each allocation address its current lock state. -/
def syncStateAt (sync : Nat → σ) (a : ArcRwLock) : σ := sync a.addr

/-- A `&mut RwLock<T>` obtained through `Arc::get_mut`, identified by the
allocation it points into. -/
structure RwLockMutRef where
  addr : Nat
deriving DecidableEq, Repr

/-- Model of `Arc::get_mut` (std semantics): returns `some` exactly when no
other `Arc` or `Weak` pointer shares the allocation, i.e. when the strong count
is exactly 1 and the weak count is 0. -/
def arcGetMut (strong weak : Nat) (a : ArcRwLock) : Option RwLockMutRef :=
  if strong = 1 ∧ weak = 0 then some ⟨a.addr⟩ else none

/-- Model of `Option::expect`: unwraps `some`, and on `none` panics with the
given message; a panic is modelled as `Except.error`. -/
def optionExpect (o : Option β) (msg : String) : Except String β :=
  match o with
  | some b => Except.ok b
  | none => Except.error msg

/-- Holders of the allocation other than this handle: the remaining strong
references plus all weak references. -/
def otherHolders (strong weak : Nat) : Nat := (strong - 1) + weak

/-- `impl Deref for TokioRwLockTrace`: `&self.inner`, a plain field borrow with
no failure path (the `Arc` itself derefs to the shared `RwLock`). -/
def TokioRwLockTrace.deref (t : TokioRwLockTrace) : ArcRwLock := t.inner

/-- `impl DerefMut for TokioRwLockTrace`:
`Arc::get_mut(&mut self.inner).expect("Failed to get mutable reference")`,
evaluated at the allocation's current strong and weak counts. -/
def TokioRwLockTrace.deref_mut (t : TokioRwLockTrace) (strong weak : Nat) :
    Except String RwLockMutRef :=
  optionExpect (arcGetMut strong weak t.inner) "Failed to get mutable reference"

/-- `LoggingRwLockReadGuard<'a, T>`: the granted shared access token (which
dereferences to the protected value) plus the acquisition instant. -/
structure LoggingRwLockReadGuard (α : Type) where
  guard : α
  startTime : Nat
deriving DecidableEq, Repr

/-- `LoggingRwLockWriteGuard<'a, T>`: the granted exclusive access token plus
the acquisition instant. -/
structure LoggingRwLockWriteGuard (α : Type) where
  guard : α
  startTime : Nat
deriving DecidableEq, Repr

/-- `impl Deref for LoggingRwLockReadGuard`: `&self.guard`, the protected value. -/
def LoggingRwLockReadGuard.deref (g : LoggingRwLockReadGuard α) : α := g.guard

/-- `impl Deref for LoggingRwLockWriteGuard`: `&self.guard`, the protected value. -/
def LoggingRwLockWriteGuard.deref (g : LoggingRwLockWriteGuard α) : α := g.guard

/-- `impl DerefMut for LoggingRwLockWriteGuard`: `&mut self.guard`; a mutation
through the exclusive guard replaces the protected value. -/
def LoggingRwLockWriteGuard.deref_mut (g : LoggingRwLockWriteGuard α) (f : α → α) :
    LoggingRwLockWriteGuard α :=
  { g with guard := f g.guard }

/-- Trait table read off the source: `LoggingRwLockReadGuard` has no `DerefMut`
impl (read-only access). -/
def readGuardImplementsDerefMut : Bool := false

/-- Trait table read off the source: `LoggingRwLockWriteGuard` implements
`DerefMut` (read/write access). -/
def writeGuardImplementsDerefMut : Bool := true

/-- tokio `Instant::elapsed` evaluated at drop time: the saturating difference
between the current instant and the stored acquisition instant. -/
def elapsedDuration (startTime now : Nat) : Nat := now - startTime

/-- `impl Drop for LoggingRwLockReadGuard`: prints the timed release line, then
calls `print_info()` from the drop impl (lexical site src/main.rs:86). -/
def dropReadGuard (g : LoggingRwLockReadGuard α) (now : Nat)
    (thread : Option String) : List LockEvent :=
  [.releaseRead (elapsedDuration g.startTime now),
   print_info readDropCallSite thread]

/-- `impl Drop for LoggingRwLockWriteGuard`: prints the timed release line, then
calls `print_info()` from the drop impl (lexical site src/main.rs:113). -/
def dropWriteGuard (g : LoggingRwLockWriteGuard α) (now : Nat)
    (thread : Option String) : List LockEvent :=
  [.releaseWrite (elapsedDuration g.startTime now),
   print_info writeDropCallSite thread]

/-- Ways the scope holding a guard can terminate. -/
inductive ExitPath
  | normal
  | earlyReturn
  | unwind
deriving DecidableEq, Repr

/-- Rust drop discipline for a scope that holds a live guard: whichever way the
scope exits — falling off the end, an early `return`, or a panic unwind — the
guard's destructor runs exactly once at that point. -/
def runReadScope (g : LoggingRwLockReadGuard α) (path : ExitPath) (now : Nat)
    (thread : Option String) : List LockEvent :=
  match path with
  | .normal => dropReadGuard g now thread
  | .earlyReturn => dropReadGuard g now thread
  | .unwind => dropReadGuard g now thread

/-- Rust drop discipline for a scope holding a live write guard. -/
def runWriteScope (g : LoggingRwLockWriteGuard α) (path : ExitPath) (now : Nat)
    (thread : Option String) : List LockEvent :=
  match path with
  | .normal => dropWriteGuard g now thread
  | .earlyReturn => dropWriteGuard g now thread
  | .unwind => dropWriteGuard g now thread

/-- Count of release records in an event list. -/
def countReleaseEvents (es : List LockEvent) : Nat :=
  es.countP fun e =>
    match e with
    | .releaseRead _ => true
    | .releaseWrite _ => true
    | .callRecord _ _ => false

/-- Result of one acquisition: the timestamped trace emitted on the way, and
the guard handed back to the caller. -/
structure AcquireResult (γ : Type) where
  events : List (Nat × LockEvent)
  guard : γ
deriving Repr

/-- `TokioRwLockTrace::read`: expands `log_call_info!()` (emitting its record at
call time `tCall`, before awaiting), awaits `self.inner.read()` — the underlying
lock grants shared access `grantDelay` later — and only then evaluates
`Instant::now()` into the guard's `start_time`. `callerLoc` is the logical
caller's source location; `read` is not `#[track_caller]`, so the body never
sees it. -/
def TokioRwLockTrace.read (t : TokioRwLockTrace) (heap : Nat → α)
    (callerLoc : Location) (tCall grantDelay : Nat) (thread : Option String) :
    AcquireResult (LoggingRwLockReadGuard α) :=
  { events := [(tCall, logCallInfo readLogSite thread)]
  , guard := { guard := valueAt heap t.inner, startTime := tCall + grantDelay } }

/-- `TokioRwLockTrace::write`: same shape as `read` with exclusive semantics. -/
def TokioRwLockTrace.write (t : TokioRwLockTrace) (heap : Nat → α)
    (callerLoc : Location) (tCall grantDelay : Nat) (thread : Option String) :
    AcquireResult (LoggingRwLockWriteGuard α) :=
  { events := [(tCall, logCallInfo writeLogSite thread)]
  , guard := { guard := valueAt heap t.inner, startTime := tCall + grantDelay } }

/-- The literal call-site record line printed by `log_call_info!` and
`print_info`: `Function '<fn-type-marker>' called at <file>:<line> on thread
<worker-name>`. -/
def callRecordLine (site : Location) (thread : Option String) : String :=
  "Function '" ++ fnTypeMarker ++ "' called at " ++ site.file ++ ":" ++
    toString site.line ++ " on thread " ++ threadNameOr thread

/-- Model of std's `println!` with an explicit output sink: when the sink
accepts the write the line is emitted; when it does not, `println!` panics with
`failed printing to stdout` (a panic is modelled as `Except.error`). -/
def printlnSink (sinkOk : Bool) (line : String) : Except String (List String) :=
  if sinkOk then Except.ok [line] else Except.error "failed printing to stdout"

/-- Lines printed by `Drop for LoggingRwLockReadGuard` when emission succeeds:
the timed release line, then the one call-site record from `print_info`. -/
def readReleaseLines (durationStr : String) (thread : Option String) : List String :=
  ["Read lock released. Duration: " ++ durationStr,
   callRecordLine readDropCallSite thread]

/-- Lines printed by `Drop for LoggingRwLockWriteGuard` when emission succeeds. -/
def writeReleaseLines (durationStr : String) (thread : Option String) : List String :=
  ["Write lock released. Duration: " ++ durationStr,
   callRecordLine writeDropCallSite thread]

/-- `Drop for LoggingRwLockReadGuard` with the output sink made explicit: both
lines go through `println!`, so a failed write panics out of the drop. -/
def readDropEmit (sinkOk : Bool) (durationStr : String) (thread : Option String) :
    Except String (List String) := do
  let l1 ← printlnSink sinkOk ("Read lock released. Duration: " ++ durationStr)
  let l2 ← printlnSink sinkOk (callRecordLine readDropCallSite thread)
  Except.ok (l1 ++ l2)

/-- `Drop for LoggingRwLockWriteGuard` with the output sink made explicit. -/
def writeDropEmit (sinkOk : Bool) (durationStr : String) (thread : Option String) :
    Except String (List String) := do
  let l1 ← printlnSink sinkOk ("Write lock released. Duration: " ++ durationStr)
  let l2 ← printlnSink sinkOk (callRecordLine writeDropCallSite thread)
  Except.ok (l1 ++ l2)

/-- The `log_call_info!` emission inside `read`/`write` with the output sink
made explicit: one `println!`, so a failed write panics out of the acquire. -/
def acquireEmit (sinkOk : Bool) (site : Location) (thread : Option String) :
    Except String (List String) :=
  printlnSink sinkOk (callRecordLine site thread)

/-- Whether a modelled operation completed without panicking. -/
def exceptOk (e : Except ε α) : Bool :=
  match e with
  | Except.ok _ => true
  | Except.error _ => false

/-- C1: for every guard value produced by read() or write(), exactly one
release record is emitted, and it is emitted exactly once at the guard's
destruction, on every exit path of the holding scope — normal end of scope,
early return, or unwind. -/
theorem release_record_exactly_once_on_every_exit_path
    (g : LoggingRwLockReadGuard α) (gw : LoggingRwLockWriteGuard α)
    (path : ExitPath) (now : Nat) (thread : Option String) :
    countReleaseEvents (runReadScope g path now thread) = 1 ∧
    countReleaseEvents (runWriteScope gw path now thread) = 1 := by
  cases path <;> exact ⟨rfl, rfl⟩

/-- C2: the mutable pass-through deref_mut panics with
`Failed to get mutable reference` whenever the inner Arc has other holders,
and returns the mutable reference into the inner RwLock allocation when the
lock is uniquely owned. -/
theorem deref_mut_fatal_unless_uniquely_owned
    (t : TokioRwLockTrace) (strong weak : Nat) (h : 1 ≤ strong) :
    t.deref_mut strong weak =
      if otherHolders strong weak = 0 then Except.ok ⟨t.inner.addr⟩
      else Except.error "Failed to get mutable reference" := by
  by_cases hc : strong = 1 ∧ weak = 0
  · obtain ⟨h1, h2⟩ := hc
    subst h1
    subst h2
    simp [TokioRwLockTrace.deref_mut, arcGetMut, optionExpect, otherHolders]
  · have hne : otherHolders strong weak ≠ 0 := by
      simp only [otherHolders]
      omega
    simp [TokioRwLockTrace.deref_mut, arcGetMut, optionExpect, hc, hne]

/-- Witness for C2 at a lock whose allocation is held by two Arcs. -/
theorem deref_mut_fatal_unless_uniquely_owned_witness :
    1 ≤ 2 ∧
      (TokioRwLockTrace.from ⟨0⟩).deref_mut 2 0 =
        if otherHolders 2 0 = 0 then
          Except.ok ⟨(TokioRwLockTrace.from ⟨0⟩).inner.addr⟩
        else Except.error "Failed to get mutable reference" :=
  ⟨by decide,
   deref_mut_fatal_unless_uniquely_owned (TokioRwLockTrace.from ⟨0⟩) 2 0 (by decide)⟩

/-- C3: read and write emit the acquire-attempt record at call time, before
suspending on the underlying lock; the suspension lasts until grant, and the
guard's acquisition instant is stamped only at grant (call time plus the grant
delay); the corresponding timed guard over the protected value is returned. -/
theorem acquire_record_before_grant_stamp_at_grant
    (t : TokioRwLockTrace) (heap : Nat → α) (callerLoc : Location)
    (tCall grantDelay : Nat) (thread : Option String) :
    (t.read heap callerLoc tCall grantDelay thread).events
        = [(tCall, logCallInfo readLogSite thread)] ∧
    (t.read heap callerLoc tCall grantDelay thread).guard.startTime
        = tCall + grantDelay ∧
    tCall ≤ (t.read heap callerLoc tCall grantDelay thread).guard.startTime ∧
    (t.read heap callerLoc tCall grantDelay thread).guard.guard
        = valueAt heap t.inner ∧
    (t.write heap callerLoc tCall grantDelay thread).events
        = [(tCall, logCallInfo writeLogSite thread)] ∧
    (t.write heap callerLoc tCall grantDelay thread).guard.startTime
        = tCall + grantDelay ∧
    tCall ≤ (t.write heap callerLoc tCall grantDelay thread).guard.startTime ∧
    (t.write heap callerLoc tCall grantDelay thread).guard.guard
        = valueAt heap t.inner :=
  ⟨rfl, rfl, Nat.le_add_right _ _, rfl, rfl, rfl, Nat.le_add_right _ _, rfl⟩

/-- C4 counterexample: at a concrete call whose logical caller sits at
user.rs:7, the acquire record emitted by read carries src/main.rs:40 — the
expansion site of log_call_info! inside the wrapper — and not the caller's
location, because read is not track_caller. -/
theorem acquire_record_location_not_logical_caller :
    ((TokioRwLockTrace.from ⟨0⟩).read (fun _ => (5 : Nat)) ⟨"user.rs", 7⟩ 0 0
        none).events
      = [(0, LockEvent.callRecord readLogSite "unknown")] ∧
    readLogSite ≠ (⟨"user.rs", 7⟩ : Location) :=
  ⟨rfl, by decide⟩

/-- C4 amended: each of the four record points reports a fixed internal site of
the wrapper — the log_call_info! expansion inside read (src/main.rs:40) or
write (src/main.rs:49) for acquires, and the print_info() call inside the
read-guard drop impl (src/main.rs:86) or write-guard drop impl
(src/main.rs:113) for releases — independent of the logical caller's
location, since neither read/write nor the Drop impls are track_caller. -/
theorem record_locations_are_wrapper_internal_sites
    (t : TokioRwLockTrace) (heap : Nat → α) (callerLoc : Location)
    (tCall grantDelay now : Nat) (thread : Option String)
    (g : LoggingRwLockReadGuard α) (gw : LoggingRwLockWriteGuard α) :
    (t.read heap callerLoc tCall grantDelay thread).events
        = [(tCall, LockEvent.callRecord readLogSite (threadNameOr thread))] ∧
    (t.write heap callerLoc tCall grantDelay thread).events
        = [(tCall, LockEvent.callRecord writeLogSite (threadNameOr thread))] ∧
    dropReadGuard g now thread
        = [.releaseRead (elapsedDuration g.startTime now),
           .callRecord readDropCallSite (threadNameOr thread)] ∧
    dropWriteGuard gw now thread
        = [.releaseWrite (elapsedDuration gw.startTime now),
           .callRecord writeDropCallSite (threadNameOr thread)] :=
  ⟨rfl, rfl, rfl, rfl⟩

/-- C5: the shared guard dereferences read-only to the protected value and has
no DerefMut impl, while the exclusive guard exposes the protected value through
both Deref and DerefMut (a mutation through it replaces the protected value). -/
theorem guard_access_capabilities (g : LoggingRwLockReadGuard α)
    (gw : LoggingRwLockWriteGuard α) (f : α → α) :
    g.deref = g.guard ∧
    readGuardImplementsDerefMut = false ∧
    gw.deref = gw.guard ∧
    (gw.deref_mut f).guard = f gw.guard ∧
    writeGuardImplementsDerefMut = true :=
  ⟨rfl, rfl, rfl, rfl, rfl⟩

/-- C6 counterexample: with the output sink unavailable, the read-guard release
emission is not swallowed — println! panics and the drop aborts with
`failed printing to stdout`. -/
theorem emission_failure_not_swallowed :
    exceptOk (readDropEmit false "2s" none) = false ∧
    readDropEmit false "2s" none = Except.error "failed printing to stdout" :=
  ⟨rfl, rfl⟩

/-- C6 amended: record emission goes through println!, which panics when the
output sink rejects the write, so an emission failure aborts the acquire or
release operation instead of being swallowed; with the sink available every
emission succeeds with the expected lines. -/
theorem emission_failure_is_fatal (durationStr : String) (site : Location)
    (thread : Option String) :
    readDropEmit false durationStr thread
        = Except.error "failed printing to stdout" ∧
    writeDropEmit false durationStr thread
        = Except.error "failed printing to stdout" ∧
    acquireEmit false site thread
        = Except.error "failed printing to stdout" ∧
    readDropEmit true durationStr thread
        = Except.ok (readReleaseLines durationStr thread) ∧
    writeDropEmit true durationStr thread
        = Except.ok (writeReleaseLines durationStr thread) ∧
    acquireEmit true site thread = Except.ok [callRecordLine site thread] :=
  ⟨rfl, rfl, rfl, rfl, rfl, rfl⟩

/-- C7: every acquire/call record is exactly the line
`Function '<fn-type-marker>' called at <file>:<line> on thread <worker-name>`
with the marker `fn()` and the worker name falling back to `unknown` when the
thread is unnamed; every release emits
`<Read|Write> lock released. Duration: <duration>` followed immediately by one
call-site record line. -/
theorem trace_line_formats (site : Location) (name durationStr : String)
    (thread : Option String) :
    callRecordLine site (some name)
        = "Function '" ++ fnTypeMarker ++ "' called at " ++ site.file ++ ":" ++
            toString site.line ++ " on thread " ++ name ∧
    callRecordLine site none
        = "Function '" ++ fnTypeMarker ++ "' called at " ++ site.file ++ ":" ++
            toString site.line ++ " on thread " ++ "unknown" ∧
    fnTypeMarker = "fn()" ∧
    readReleaseLines durationStr thread
        = ["Read lock released. Duration: " ++ durationStr,
           callRecordLine readDropCallSite thread] ∧
    writeReleaseLines durationStr thread
        = ["Write lock released. Duration: " ++ durationStr,
           callRecordLine writeDropCallSite thread] :=
  ⟨rfl, rfl, rfl, rfl, rfl⟩

/-- C8: the duration reported in a guard's release record is non-negative and
at least the time actually elapsed between the stamped acquisition instant and
the guard's destruction. -/
theorem reported_duration_at_least_elapsed (g : LoggingRwLockReadGuard α)
    (gw : LoggingRwLockWriteGuard α) (now : Nat) (thread : Option String)
    (hg : g.startTime ≤ now) (hgw : gw.startTime ≤ now) :
    (dropReadGuard g now thread).head?
        = some (.releaseRead (elapsedDuration g.startTime now)) ∧
    now - g.startTime ≤ elapsedDuration g.startTime now ∧
    0 ≤ elapsedDuration g.startTime now ∧
    (dropWriteGuard gw now thread).head?
        = some (.releaseWrite (elapsedDuration gw.startTime now)) ∧
    now - gw.startTime ≤ elapsedDuration gw.startTime now ∧
    0 ≤ elapsedDuration gw.startTime now :=
  ⟨rfl, le_refl _, Nat.zero_le _, rfl, le_refl _, Nat.zero_le _⟩

/-- Witness for C8: a guard acquired at instant 3 and dropped at instant 10. -/
theorem reported_duration_at_least_elapsed_witness :
    3 ≤ 10 ∧
      ((dropReadGuard (⟨5, 3⟩ : LoggingRwLockReadGuard Nat) 10 none).head?
          = some (.releaseRead (elapsedDuration 3 10)) ∧
       10 - 3 ≤ elapsedDuration 3 10 ∧
       0 ≤ elapsedDuration 3 10 ∧
       (dropWriteGuard (⟨5, 3⟩ : LoggingRwLockWriteGuard Nat) 10 none).head?
          = some (.releaseWrite (elapsedDuration 3 10)) ∧
       10 - 3 ≤ elapsedDuration 3 10 ∧
       0 ≤ elapsedDuration 3 10) :=
  ⟨by decide,
   reported_duration_at_least_elapsed ⟨5, 3⟩ ⟨5, 3⟩ 10 none (by decide) (by decide)⟩

/-- C9: TokioRwLockTrace::from wraps an already-shared lock without copying its
contents — the instrumented lock holds the very same allocation handle, so it
and every other holder of that shared lock observe the same protected value and
the same synchronization state, never a duplicate. -/
theorem from_shares_underlying_state (a : ArcRwLock) (heap : Nat → α)
    (sync : Nat → σ) :
    (TokioRwLockTrace.from a).inner = a ∧
    valueAt heap (TokioRwLockTrace.from a).inner = valueAt heap a ∧
    syncStateAt sync (TokioRwLockTrace.from a).inner = syncStateAt sync a :=
  ⟨rfl, rfl, rfl⟩

/-- C10: the immutable deref pass-through is total — whatever the allocation's
strong and weak counts, it returns the inner RwLock handle with no failure
branch; only the mutable pass-through has a fatal branch. -/
theorem deref_total_regardless_of_sharing (t : TokioRwLockTrace)
    (strong weak : Nat) :
    t.deref = t.inner ∧
    (otherHolders strong weak ≠ 0 →
      t.deref_mut strong weak
        = Except.error "Failed to get mutable reference") := by
  refine ⟨rfl, fun h => ?_⟩
  have hc : ¬ (strong = 1 ∧ weak = 0) := by
    rintro ⟨h1, h2⟩
    simp [otherHolders, h1, h2] at h
  simp [TokioRwLockTrace.deref_mut, arcGetMut, optionExpect, hc]

/-- Witness for C10 at a lock whose allocation is held by two Arcs. -/
theorem deref_total_regardless_of_sharing_witness :
    otherHolders 2 0 ≠ 0 ∧
    (TokioRwLockTrace.from ⟨0⟩).deref = (TokioRwLockTrace.from ⟨0⟩).inner ∧
    (TokioRwLockTrace.from ⟨0⟩).deref_mut 2 0
        = Except.error "Failed to get mutable reference" :=
  ⟨by decide,
   (deref_total_regardless_of_sharing (TokioRwLockTrace.from ⟨0⟩) 2 0).1,
   (deref_total_regardless_of_sharing (TokioRwLockTrace.from ⟨0⟩) 2 0).2
     (by decide)⟩

end TracingLock
